import Mathlib

/-!
Verification of the page-tree repair subsystem of integreat-cms.

This file shallowly embeds `src/integreat_cms/cms/utils/repair_tree.py` and
`src/integreat_cms/cms/utils/tree_mutex.py`.  Stored `Page` rows become a
`List Page`; Python exceptions become the `PyErr` error type threaded through
`Except`; the diagnostic output of the injected `Printer` becomes a list of
structured events.  The collaborators that the spec treats as external are
modelled from the spec: the lock store offers atomic get-or-set-with-TTL
(spec section 4.1), and the transaction scope around one repair run is
all-or-nothing, rolling every write back when an exception escapes
(spec section 5).  Line numbers in comments refer to the two source files.
-/

/-- One stored row of the page table: exactly the fields of the nested-set
structure that `repair_tree` reads and writes (`id`, `parent_id`, `tree_id`,
`lft`, `rgt`, `depth`).  `parent` is the nullable foreign key, held as the
parent id. -/
structure Page where
  id : Nat
  parent : Option Nat
  tree_id : Int
  lft : Int
  rgt : Int
  depth : Int
deriving DecidableEq, Repr

/-- Python exceptions raised by the embedded code. -/
inductive PyErr where
  /-- NameError: an unbound module- or local-level name was evaluated. -/
  | nameError (n : String)
  /-- AttributeError: attribute access on an object lacking it. -/
  | attrError (n : String)
  /-- KeyError: dict subscript with an absent key. -/
  | keyError
  /-- Page.DoesNotExist from a related-object fetch. -/
  | doesNotExist
  /-- ValueError raised by `repair_tree` for a missing page id (line 83). -/
  | valueError (pageId : Nat)
deriving DecidableEq, Repr

/-- The four output channels of the `Printer` object (repair_tree.py:14-68);
with the default printer every channel falls back to `logger.debug`, but the
channel on which each line is emitted is part of the observable report. -/
inductive PChannel where
  | print
  | error
  | success
  | write
deriving DecidableEq, Repr

/-- One diagnostic line, keyed by the call site that formats it. -/
inductive Msg where
  /-- Line 92/98: "Fixing/Detecting problems in tree with id ..." -/
  | fixing_tree (commit : Bool) (treeId : Int)
  /-- Line 116/164: bold "Page {id}:" header. -/
  | page_header (id : Nat)
  /-- Line 117: "parent_id: ..." -/
  | parent_line (p : Option Nat)
  /-- Line 119: tree_id confirmed. -/
  | tree_id_ok (t : Int)
  /-- Line 121: tree_id mismatch, old and corrected value. -/
  | tree_id_fix (old new : Int)
  /-- Line 127/134: depth confirmed. -/
  | depth_ok (d : Int)
  /-- Line 129/136: depth mismatch, old and corrected value. -/
  | depth_fix (old new : Int)
  /-- Line 139: lft confirmed. -/
  | lft_ok (l : Int)
  /-- Line 141: lft mismatch, old and corrected value. -/
  | lft_fix (old new : Int)
  /-- Line 144: rgt confirmed. -/
  | rgt_ok (r : Int)
  /-- Line 146: rgt mismatch, old and corrected value. -/
  | rgt_fix (old new : Int)
  /-- Line 159: "Orphans detected!" banner for one tree id. -/
  | orphans_header (treeId : Int)
  /-- Line 165: parent id of one orphan. -/
  | orphan_parent (p : Option Nat)
  /-- Line 167: tree id of the parent of one orphan. -/
  | orphan_parent_tree (t : Int)
  /-- Lines 168-174: depth/lft/rgt block of one orphan. -/
  | orphan_coords (depth lft rgt : Int)
deriving DecidableEq, Repr

/-- One emitted diagnostic line: channel plus structured content. -/
abbrev REvent := PChannel × Msg

/-- Ordering used by the default manager of `Page`
(`page.py:40`, `order_by("tree_id", "lft")`). -/
def pageLe (p q : Page) : Bool :=
  p.tree_id < q.tree_id || (p.tree_id == q.tree_id && p.lft ≤ q.lft)

/-- Stable insertion of one row into an already ordered list. -/
def insertPage (p : Page) : List Page → List Page
  | [] => [p]
  | q :: qs => if pageLe q p then q :: insertPage p qs else p :: q :: qs

/-- Stable sort of the stored rows by `(tree_id, lft)`: the row order every
queryset in these two files observes. -/
def orderByTreeIdLft (l : List Page) : List Page :=
  l.foldr insertPage []

/-- `Page.objects.get(id=i)` as a partial lookup (ids are unique in the
table, so the first hit is the row). -/
def getPage (storage : List Page) (i : Nat) : Option Page :=
  storage.find? (fun p => p.id == i)

/-- Fetch of a related parent row; a dangling foreign key surfaces as
`Page.DoesNotExist`. -/
def fetchParent (storage : List Page) (pid : Nat) : Except PyErr Page :=
  match getPage storage pid with
  | some p => pure p
  | none => .error .doesNotExist

/-- Embeds `check_tree_fields` (repair_tree.py:106-148): compares the stored
`tree_id`/`depth`/`lft`/`rgt` of one node against the recomputed `left` and
`right` and the values derived from its parent, emitting one line per field
and returning whether all four are valid.  The source declares a stray
`self` first parameter although it is a module-level function; both call
sites (lines 93 and 103) are unreachable, the second one because it names
the unbound variables `tree_node`, `left` and `right`. -/
def check_tree_fields (storage : List Page) (tree_node : Page)
    (left right : Int) : Except PyErr (List REvent × Bool) := do
  let evs0 : List REvent :=
    [(PChannel.write, Msg.page_header tree_node.id),
     (PChannel.success, Msg.parent_line tree_node.parent)]
  -- lines 118-124: tree_id check (touches tree_node.parent.tree_id)
  let (evs1, ok1) ←
    match tree_node.parent with
    | none =>
        pure ([((PChannel.success, Msg.tree_id_ok tree_node.tree_id) : REvent)], true)
    | some pid => do
        let parent ← fetchParent storage pid
        if tree_node.tree_id == parent.tree_id then
          pure ([((PChannel.success, Msg.tree_id_ok tree_node.tree_id) : REvent)], true)
        else
          pure ([((PChannel.error, Msg.tree_id_fix tree_node.tree_id parent.tree_id) : REvent)], false)
  -- lines 125-137: depth check
  let (evs2, ok2) ←
    match tree_node.parent with
    | some pid => do
        let parent ← fetchParent storage pid
        if tree_node.depth == parent.depth + 1 then
          pure ([((PChannel.success, Msg.depth_ok tree_node.depth) : REvent)], true)
        else
          pure ([((PChannel.error, Msg.depth_fix tree_node.depth (parent.depth + 1)) : REvent)], false)
    | none =>
        if tree_node.depth == 1 then
          pure ([((PChannel.success, Msg.depth_ok tree_node.depth) : REvent)], true)
        else
          pure ([((PChannel.error, Msg.depth_fix tree_node.depth 1) : REvent)], false)
  -- lines 138-142: lft check
  let (evs3, ok3) :=
    if tree_node.lft == left then
      ([((PChannel.success, Msg.lft_ok tree_node.lft) : REvent)], true)
    else
      ([((PChannel.error, Msg.lft_fix tree_node.lft left) : REvent)], false)
  -- lines 143-147: rgt check
  let (evs4, ok4) :=
    if tree_node.rgt == right then
      ([((PChannel.success, Msg.rgt_ok tree_node.rgt) : REvent)], true)
    else
      ([((PChannel.error, Msg.rgt_fix tree_node.rgt right) : REvent)], false)
  pure (evs0 ++ evs1 ++ evs2 ++ evs3 ++ evs4, ok1 && ok2 && ok3 && ok4)

/-- The queryset of `check_for_orphans` (repair_tree.py:156-158):
`Page.objects.filter(tree_id=tree_id).exclude(id__in=pages_seen)` under the
default manager ordering. -/
def orphans_of (storage : List Page) (tree_id : Int) (pages_seen : List Nat) :
    List Page :=
  (orderByTreeIdLft storage).filter
    (fun p => p.tree_id == tree_id && !(pages_seen.contains p.id))

/-- The per-orphan diagnostic block of `check_for_orphans`
(repair_tree.py:163-174); reading `orphan.parent.tree_id` (line 167) fetches
the related row and raises `DoesNotExist` if the foreign key dangles. -/
def orphan_report (storage : List Page) : List Page → Except PyErr (List REvent)
  | [] => pure []
  | o :: os => do
      let mid : List REvent ←
        match o.parent with
        | some pid => do
            let parent ← fetchParent storage pid
            pure [((PChannel.error, Msg.orphan_parent_tree parent.tree_id) : REvent)]
        | none => pure ([] : List REvent)
      let rest ← orphan_report storage os
      pure ([((PChannel.write, Msg.page_header o.id) : REvent),
             (PChannel.error, Msg.orphan_parent o.parent)]
            ++ mid
            ++ [((PChannel.write, Msg.orphan_coords o.depth o.lft o.rgt) : REvent)]
            ++ rest)

/-- Embeds `check_for_orphans` (repair_tree.py:150-176): the set difference
between all rows claiming `tree_id` and the `pages_seen` visited by the
walk, reported and returned; an empty difference returns `[]`. -/
def check_for_orphans (storage : List Page) (tree_id : Int)
    (pages_seen : List Nat) : Except PyErr (List REvent × List Page) :=
  let orphans := orphans_of storage tree_id pages_seen
  if orphans.isEmpty then pure ([], [])
  else do
    let evs ← orphan_report storage orphans
    pure (((PChannel.error, Msg.orphans_header tree_id) : REvent) :: evs, orphans)

/-- A node held in `MPTTFixer.fixed_nodes`: the row plus the `children`
list of child pks the fixer attaches to it (repair_tree.py:205, 215). -/
structure FixedNode where
  page : Page
  children : List Nat
deriving DecidableEq, Repr

/-- The state of an `MPTTFixer` instance: `broken_nodes` is the full table
ordered by `(tree_id, lft)` (line 188); `fixed_nodes` is the insertion-ordered
dict from pk to fixed node (line 190). -/
structure MPTTFixer where
  broken_nodes : List Page
  fixed_nodes : List (Nat × FixedNode)
deriving DecidableEq, Repr

/-- Dict lookup in `fixed_nodes` by integer pk. -/
def MPTTFixer.lookup_fixed (f : MPTTFixer) (pk : Nat) : Option FixedNode :=
  (f.fixed_nodes.find? (fun kv => kv.1 == pk)).map (fun kv => kv.2)

/-- Embeds `MPTTFixer.get_root_nodes` (repair_tree.py:195-207).  The first
statement of the body (line 199) is the bare expression `tree_node_counter`;
that name is bound nowhere in the module, so executing the method raises
NameError before the loop below it can run.  (Had it run, the loop would in
turn evaluate `self.existing_nodes` on line 207, an attribute that
`__init__` never creates, raising AttributeError for any forest with a
root.) -/
def MPTTFixer.get_root_nodes (_f : MPTTFixer) : Except PyErr MPTTFixer :=
  .error (.nameError "tree_node_counter")

/-- Embeds `MPTTFixer.get_all_nodes` (repair_tree.py:209-221).  Each
iteration first evaluates `self.fixed_nodes[node.parent]` (line 214): the
subscript key is the related `Page` object, or `None` for a root, while the
dict is keyed by integer pks, so the first iteration over a nonempty table
raises KeyError.  Only reachable after `get_root_nodes`, which already
raises. -/
def MPTTFixer.get_all_nodes (f : MPTTFixer) : Except PyErr MPTTFixer :=
  match f.broken_nodes with
  | [] => pure f
  | _ :: _ => .error .keyError

/-- Embeds `MPTTFixer.calculate_lft_rgt` (repair_tree.py:223-239): a first
child continues from the parent lft, a later sibling continues from the rgt
of the previous sibling (the last pk in `parent.children`, found in
`fixed_nodes`); in both cases `rgt = lft + 1` and later siblings copy the
sibling depth. -/
def MPTTFixer.calculate_lft_rgt (f : MPTTFixer) (node parent : FixedNode) :
    Except PyErr FixedNode :=
  match parent.children.getLast? with
  | none =>
      pure { node with page :=
        { node.page with
            lft := parent.page.lft + 1
            rgt := parent.page.lft + 2
            depth := parent.page.depth + 1 } }
  | some lastPk =>
      match f.lookup_fixed lastPk with
      | none => .error .keyError
      | some sib =>
          pure { node with page :=
            { node.page with
                lft := sib.page.rgt + 1
                rgt := sib.page.rgt + 2
                depth := sib.page.depth } }

/-- Embeds `MPTTFixer.update_ancestors_rgt` (repair_tree.py:241-251).  Its
first statement repeats the `self.fixed_nodes[node.parent]` subscript of
line 214 with a `Page`-object (or `None`) key against integer keys, raising
KeyError; past that, its `while node.parent` loop never reassigns `parent`
and so could not terminate for any node whose parent is not a root. -/
def MPTTFixer.update_ancestors_rgt (_f : MPTTFixer) (_node : FixedNode) :
    Except PyErr MPTTFixer :=
  .error .keyError

/-- Embeds `MPTTFixer.__init__` (repair_tree.py:184-193): load and order the
whole table, start with an empty `fixed_nodes` dict, then run
`get_root_nodes` (which raises NameError unconditionally) and
`get_all_nodes`.  The trailing `self.tree_counter = 0` is never readable and
is not carried. -/
def MPTTFixer.init (storage : List Page) : Except PyErr MPTTFixer := do
  let f : MPTTFixer :=
    { broken_nodes := orderByTreeIdLft storage, fixed_nodes := [] }
  let f ← f.get_root_nodes
  let f ← f.get_all_nodes
  pure f

/-- Embeds `MPTTFixer.get_fixed_tree_of_page` (repair_tree.py:259-267).  It
subscripts `self.fixed_nodes[node_id]` (KeyError when absent), then iterates
`self.fixed_nodes.items()` and reads `.tree_id` off each `(pk, node)` tuple,
which raises AttributeError on the first item of a nonempty dict; with an
empty dict the trailing bare `yield` hands a single `None` to the caller. -/
def MPTTFixer.get_fixed_tree_of_page (f : MPTTFixer) (node_id : Nat) :
    Except PyErr (List FixedNode) :=
  match f.lookup_fixed node_id with
  | none => .error .keyError
  | some _ =>
      match f.fixed_nodes with
      | [] => pure []
      | _ :: _ => .error (.attrError "tree_id")

/-- The loop over `Page.objects.filter(lft=1)` in the whole-forest branch of
`repair_tree` (repair_tree.py:96-99): per root one progress line, then
`check_for_orphans` with the `pages_seen` list — which the body never
appends to, so it is always `[]` here. -/
def forest_loop (storage : List Page) (commit : Bool) :
    List Page → List REvent × Except PyErr Unit
  | [] => ([], .ok ())
  | root :: roots =>
      let ev0 : REvent := (PChannel.print, Msg.fixing_tree commit root.tree_id)
      match check_for_orphans storage root.tree_id [] with
      | .error e => ([ev0], .error e)
      | .ok (evs, _orphans) =>
          match forest_loop storage commit roots with
          | (more, res) => (ev0 :: (evs ++ more), res)

/-- Embeds the part of the `repair_tree` body after the fixer construction
(repair_tree.py:79-104).  With a nonzero `page_id` a missing row raises
ValueError (line 83) and an existing one sends the walk into
`get_fixed_tree_of_page`, whose first item raises (an empty dict yields a
bare `None`, and formatting `root_node.tree_id` on line 92 then raises
AttributeError as well, with no event emitted first).  The whole-forest
branch loops over roots and, under `commit`, iterates the `fixed_nodes` keys
where line 103 names the unbound variables `tree_node`, `left` and `right`,
raising NameError on the first key. -/
def repair_tree_rest (storage : List Page) (fixer : MPTTFixer)
    (page_id : Nat) (commit : Bool) : List REvent × Except PyErr (List Page) :=
  if page_id ≠ 0 then
    match getPage storage page_id with
    | none => ([], .error (.valueError page_id))
    | some page =>
        match fixer.get_fixed_tree_of_page page.id with
        | .error e => ([], .error e)
        | .ok _ => ([], .error (.attrError "tree_id"))
  else
    let roots := (orderByTreeIdLft storage).filter (fun p => p.lft == 1)
    match forest_loop storage commit roots with
    | (evs, .error e) => (evs, .error e)
    | (evs, .ok ()) =>
        if commit then
          match fixer.fixed_nodes with
          | [] => (evs, .ok storage)
          | _ :: _ => (evs, .error (.nameError "tree_node"))
        else (evs, .ok storage)

/-- Embeds the body of `repair_tree` (repair_tree.py:73-104): after
`pages_seen = []` and `orphans = set()`, line 77 constructs `MPTTFixer()`
before anything else — including before the `page_id` existence check — so
the NameError from `get_root_nodes` escapes every invocation first.  Events
emitted before an exception are not undone by the surrounding transaction;
none are ever emitted before this one. -/
def repair_tree_body (storage : List Page) (page_id : Nat) (commit : Bool) :
    List REvent × Except PyErr (List Page) :=
  match MPTTFixer.init storage with
  | .error e => ([], .error e)
  | .ok fixer => repair_tree_rest storage fixer page_id commit

/-- LOCK_SECONDS / INTERVAL (tree_mutex.py:12-13): the acquisition loop can
attempt `cache.get_or_set` twenty times before `time.time()` reaches the
timeout computed on line 30. -/
def attempts : Nat := 20

/-- Modelled from the spec (section 4.1): the lock store offers atomic
get-or-set-with-TTL.  `env k` is the foreign token holding the lock at the
k-th attempt of this invocation; `none` means free or expired, in which case
`get_or_set` stores the fresh uuid of this caller and returns it, so the
comparison on line 35 succeeds.  `first_free` returns the index of the first
successful attempt within the window, if any. -/
def first_free (env : Nat → Option Nat) (k : Nat) : Nat → Option Nat
  | 0 => none
  | fuel + 1 => if (env k).isNone then some k else first_free env (k + 1) fuel

/-- Observable result of one invocation of the decorated `repair_tree`:
the stored table afterwards, the emitted diagnostics, whether the call
returned (`ok`, the Python value is always `None`) or raised, and whether
the mutex was ever acquired. -/
structure RunResult where
  storage : List Page
  events : List REvent
  outcome : Except PyErr Unit
  lockAcquired : Bool
deriving Repr

/-- Embeds one invocation of `repair_tree` through both of its decorators
(`@transaction.atomic` then `@tree_mutex`, repair_tree.py:71-72, and the
inner `with transaction.atomic(...)` on tree_mutex.py:38).  Modelled from the
spec (section 5), the transaction scopes collapse into one all-or-nothing
region: when the body raises, every write is rolled back and the exception
propagates (the `cache.delete` on line 49 is then never reached).  When all
twenty `get_or_set` attempts fail, the `while` loop of lines 31-53 falls
through and `innermost_function` returns `None` with no exception of any
kind raised and the guarded body never invoked. -/
def repair_tree_run (env : Nat → Option Nat) (storage : List Page)
    (page_id : Nat) (commit : Bool) : RunResult :=
  match first_free env 0 attempts with
  | none =>
      { storage := storage, events := [], outcome := .ok (), lockAcquired := false }
  | some _ =>
      match repair_tree_body storage page_id commit with
      | (evs, .error e) =>
          { storage := storage, events := evs, outcome := .error e, lockAcquired := true }
      | (evs, .ok storage2) =>
          { storage := storage2, events := evs, outcome := .ok (), lockAcquired := true }

/-- A lock-store history in which the mutex is free at the first attempt:
the uncontended invocation. -/
def envFree : Nat → Option Nat := fun _ => none

/-- A lock-store history in which a foreign holder (token 7) keeps the
mutex for the entire acquisition window. -/
def envHeld : Nat → Option Nat := fun _ => some 7

/-!
Two concurrent invocations of the decorated `repair_tree` on the same tree,
as a discrete-time transition system.  One tick is one INTERVAL (0.5 s), so
LOCK_SECONDS — both the TTL handed to `cache.get_or_set` and the length of
the acquisition window — is twenty ticks.  The shared lock entry carries the
holder token and its expiry tick; `get_or_set` succeeds exactly when the
entry is absent or expired.  Because the repair body always raises, the
`cache.delete` of tree_mutex.py:49 is never executed and a taken lock only
ever leaves the store by TTL expiry — faithful to the code, where the
exception propagates out of the `with` block past the delete. -/

/-- The TTL of the lock entry, in ticks of INTERVAL: LOCK_SECONDS = 10 s. -/
def ttl : Nat := 20

/-- One invocation: the tick at which it starts its acquisition loop and the
number of ticks its critical section (the guarded body, up to the exception)
occupies once the lock is acquired. -/
structure ProcCfg where
  start : Nat
  dur : Nat
deriving DecidableEq, Repr

/-- Phase of one invocation: polling for the lock, inside the critical
section with `r` ticks of work left, terminated by the propagated body
exception, or fallen out of the acquisition loop (the silent `None`
return). -/
inductive PState where
  | trying
  | inCS (r : Nat)
  | raised
  | timedOut
deriving DecidableEq, Repr

/-- Global state: the clock, the lock entry (token `false` = first process,
`true` = second; expiry tick), and both process phases. -/
structure MState where
  time : Nat
  lock : Option (Bool × Nat)
  a : PState
  b : PState
deriving DecidableEq, Repr

/-- Whether a `get_or_set` at tick `time` stores a fresh token: the entry is
absent or its TTL has elapsed. -/
def lockFree (lock : Option (Bool × Nat)) (time : Nat) : Bool :=
  match lock with
  | none => true
  | some (_, e) => e ≤ time

/-- One tick of one process (tree_mutex.py:27-53): before its start tick it
has not been invoked; inside the window it attempts `get_or_set`, entering
the critical section on success with a fresh entry expiring `ttl` ticks
later, else sleeping one INTERVAL; once `time` passes `start + ttl` the
`while` guard fails and the call returns silently; in the critical section
it works one tick at a time until the body raises. -/
def procAct (tok : Bool) (cfg : ProcCfg) (time : Nat)
    (lock : Option (Bool × Nat)) : PState → Option (Bool × Nat) × PState
  | .trying =>
      if time < cfg.start then (lock, .trying)
      else if time < cfg.start + ttl then
        if lockFree lock time then (some (tok, time + ttl), .inCS cfg.dur)
        else (lock, .trying)
      else (lock, .timedOut)
  | .inCS r => if r ≤ 1 then (lock, .raised) else (lock, .inCS (r - 1))
  | .raised => (lock, .raised)
  | .timedOut => (lock, .timedOut)

/-- One global tick: both processes act on the shared lock, in the order the
scheduler picks for this tick, then the clock advances. -/
def tick (ca cb : ProcCfg) (sched : Nat → Bool) (s : MState) : MState :=
  if sched s.time then
    { time := s.time + 1
      lock := (procAct true cb s.time (procAct false ca s.time s.lock s.a).1 s.b).1
      a := (procAct false ca s.time s.lock s.a).2
      b := (procAct true cb s.time (procAct false ca s.time s.lock s.a).1 s.b).2 }
  else
    { time := s.time + 1
      lock := (procAct false ca s.time (procAct true cb s.time s.lock s.b).1 s.a).1
      a := (procAct false ca s.time (procAct true cb s.time s.lock s.b).1 s.a).2
      b := (procAct true cb s.time s.lock s.b).2 }

/-- The system after `n` ticks, from an empty lock store. -/
def mrun (ca cb : ProcCfg) (sched : Nat → Bool) : Nat → MState
  | 0 => { time := 0, lock := none, a := .trying, b := .trying }
  | n + 1 => tick ca cb sched (mrun ca cb sched n)

/-- Whether a process phase is inside the guarded critical section. -/
def inCSb : PState → Bool
  | .inCS _ => true
  | _ => false

/-- Both invocations inside the critical section at once: the mutual
exclusion violation. -/
def bothInCS (s : MState) : Bool :=
  inCSb s.a && inCSb s.b

/-- Invariant of one process: whenever it is inside the critical section
with `r` ticks of work left, the shared lock entry carries its own token and
does not expire sooner than `r - slack` ticks from now.  With `slack = 1`
this holds at every tick boundary; `slack = 0` is the tightened form holding
right after the process has acted within a tick. -/
def okp (tok : Bool) (slack : Nat) (time : Nat)
    (lock : Option (Bool × Nat)) : PState → Prop
  | .inCS r => 1 ≤ r ∧ ∃ e, lock = some (tok, e) ∧ time + r ≤ e + slack
  | _ => True

/-- Weakened mid-tick invariant for the process that has not acted yet while
the other one already has: either it is on its last tick of work (and will
leave the critical section when it acts), or the lock entry is still its
own. -/
def okMid (tok : Bool) (time : Nat)
    (lock : Option (Bool × Nat)) : PState → Prop
  | .inCS r => 1 ≤ r ∧ (r = 1 ∨ ∃ e, lock = some (tok, e) ∧ time + r ≤ e + 1)
  | _ => True

/-- Global invariant of the two-process system at a tick boundary. -/
def minv (s : MState) : Prop :=
  okp false 1 s.time s.lock s.a ∧ okp true 1 s.time s.lock s.b

/-- A root (tree 1) whose stored coordinates would need widening once the
corrupt child below is reattached. -/
def pageA : Page := { id := 1, parent := none, tree_id := 1, lft := 1, rgt := 4, depth := 1 }

/-- A child of the root with corrupt stored coordinates. -/
def pageB : Page := { id := 2, parent := some 1, tree_id := 1, lft := 5, rgt := 6, depth := 2 }

/-- A node claiming tree 1 whose parent reference points at a node of tree 2:
unreachable from the tree-1 root, hence an orphan. -/
def pageC : Page := { id := 3, parent := some 99, tree_id := 1, lft := 2, rgt := 3, depth := 2 }

/-- The root of a second tree, target of the dangling parent link above. -/
def pageD : Page := { id := 99, parent := none, tree_id := 2, lft := 1, rgt := 2, depth := 1 }

/-- A two-node forest: one root, one corrupt child. -/
def forest1 : List Page := [pageA, pageB]

/-- A forest with a root, a corrupt child, one orphan and a second tree. -/
def forest2 : List Page := [pageA, pageB, pageC, pageD]

instance : DecidableEq (Except PyErr Unit) := fun a b =>
  match a, b with
  | .ok (), .ok () => isTrue rfl
  | .error e, .error f =>
      match decEq e f with
      | isTrue h => isTrue (by rw [h])
      | isFalse h => isFalse (fun hh => h (Except.error.inj hh))
  | .ok (), .error _ => isFalse (fun h => Except.noConfusion h)
  | .error _, .ok () => isFalse (fun h => Except.noConfusion h)

/-- Constructing the fixer raises the NameError from `get_root_nodes` for
every stored table, before any node is processed. -/
theorem mpttFixer_init_raises (s : List Page) :
    MPTTFixer.init s = .error (.nameError "tree_node_counter") := rfl

/-- The body of `repair_tree` raises that NameError on line 77 for every
input, before emitting any event or touching any row. -/
theorem repair_tree_body_raises (s : List Page) (pid : Nat) (c : Bool) :
    repair_tree_body s pid c = ([], .error (.nameError "tree_node_counter")) := rfl

/-- A run that wins the mutex enters the body, which raises; the transaction
rolls back every write, so the table is unchanged, nothing was reported and
the NameError propagates to the caller. -/
theorem repair_run_acquired {env : Nat → Option Nat} {k : Nat}
    (h : first_free env 0 attempts = some k) (s : List Page) (pid : Nat) (c : Bool) :
    repair_tree_run env s pid c =
      { storage := s, events := [], outcome := .error (.nameError "tree_node_counter"),
        lockAcquired := true } := by
  unfold repair_tree_run
  rw [h, repair_tree_body_raises]

/-- A run that never wins the mutex falls out of the acquisition loop and
returns `None` silently: no exception, no events, no writes. -/
theorem repair_run_timeout {env : Nat → Option Nat}
    (h : first_free env 0 attempts = none) (s : List Page) (pid : Nat) (c : Bool) :
    repair_tree_run env s pid c =
      { storage := s, events := [], outcome := .ok (), lockAcquired := false } := by
  unfold repair_tree_run
  rw [h]

/-- No invocation of the decorated `repair_tree` ever changes the stored
table, whatever the lock history, target id and commit flag. -/
theorem repair_run_storage (env : Nat → Option Nat) (s : List Page)
    (pid : Nat) (c : Bool) : (repair_tree_run env s pid c).storage = s := by
  cases h : first_free env 0 attempts with
  | none => rw [repair_run_timeout h]
  | some k => rw [repair_run_acquired h]

/-- No invocation ever emits a diagnostic event. -/
theorem repair_run_events (env : Nat → Option Nat) (s : List Page)
    (pid : Nat) (c : Bool) : (repair_tree_run env s pid c).events = [] := by
  cases h : first_free env 0 attempts with
  | none => rw [repair_run_timeout h]
  | some k => rw [repair_run_acquired h]

/-- If the lock is foreign-held at every attempt of the window, the
acquisition loop never succeeds. -/
theorem first_free_none_of_held (env : Nat → Option Nat) :
    ∀ (fuel k : Nat), (∀ j, j < fuel → (env (k + j)).isSome = true) →
      first_free env k fuel = none := by
  intro fuel
  induction fuel with
  | zero => intro k _; rfl
  | succ fuel ih =>
      intro k h
      have h0 : (env k).isSome = true := by
        have := h 0 (Nat.succ_pos fuel)
        simpa using this
      have hnone : (env k).isNone = false := by
        cases he : env k with
        | none => rw [he] at h0; simp at h0
        | some v => rfl
      simp only [first_free, hnone, Bool.false_eq_true, if_false]
      exact ih (k + 1) (fun j hj => by
        have := h (j + 1) (by omega)
        rw [show k + 1 + j = k + (j + 1) by omega]
        exact this)

/-- When a `get_or_set` at this tick would fail (entry present, unexpired),
no action of any process replaces the lock entry. -/
theorem procAct_keeps {tok : Bool} {c : ProcCfg} {time : Nat}
    {lock : Option (Bool × Nat)} (hfree : lockFree lock time = false) (p : PState) :
    (procAct tok c time lock p).1 = lock := by
  cases p with
  | trying =>
      simp only [procAct]
      split
      · rfl
      · split
        · simp [hfree]
        · rfl
  | inCS r => simp only [procAct]; split <;> rfl
  | raised => rfl
  | timedOut => rfl

/-- One action of a process preserves its own invariant in the tightened
form, provided its critical section fits inside the TTL. -/
theorem okp_self {tok : Bool} {c : ProcCfg} {time : Nat}
    {lock : Option (Bool × Nat)} {p : PState}
    (hd1 : 1 ≤ c.dur) (hd2 : c.dur ≤ ttl) (hp : okp tok 1 time lock p) :
    okp tok 0 time (procAct tok c time lock p).1 (procAct tok c time lock p).2 := by
  cases p with
  | trying =>
      simp only [procAct]
      split
      · trivial
      · split
        · split
          · exact ⟨hd1, time + ttl, rfl, by omega⟩
          · trivial
        · trivial
  | inCS r =>
      obtain ⟨hr, e, hlock, hle⟩ := hp
      simp only [procAct]
      split
      · trivial
      · exact ⟨by omega, e, hlock, by omega⟩
  | raised => trivial
  | timedOut => trivial

/-- One action of the other process leaves a critical-section holder with at
least the weakened invariant: its lock entry can only have been replaced if
it was already expired, which the boundary invariant rules out except on the
very last tick of work. -/
theorem okp_other_mid {tok tq : Bool} {c : ProcCfg} {time : Nat}
    {lock : Option (Bool × Nat)} {p q : PState} (hq : okp tq 1 time lock q) :
    okMid tq time (procAct tok c time lock p).1 q := by
  cases q with
  | inCS r =>
      obtain ⟨hr, e, hlock, hle⟩ := hq
      rcases Nat.eq_or_lt_of_le hr with h1 | h2
      · exact ⟨hr, Or.inl h1.symm⟩
      · have hfree : lockFree lock time = false := by
          rw [hlock]
          simp only [lockFree, decide_eq_false_iff_not]
          omega
        exact ⟨hr, Or.inr ⟨e, (procAct_keeps hfree p).trans hlock, hle⟩⟩
  | trying => trivial
  | raised => trivial
  | timedOut => trivial

/-- The action of a process holding only the weakened invariant restores the
tightened one: on its last tick it leaves the critical section, otherwise
its lock entry was still intact. -/
theorem okMid_self {tq : Bool} {c : ProcCfg} {time : Nat}
    {lock : Option (Bool × Nat)} {q : PState}
    (hd1 : 1 ≤ c.dur) (hd2 : c.dur ≤ ttl) (hq : okMid tq time lock q) :
    okp tq 0 time (procAct tq c time lock q).1 (procAct tq c time lock q).2 := by
  cases q with
  | trying =>
      simp only [procAct]
      split
      · trivial
      · split
        · split
          · exact ⟨hd1, time + ttl, rfl, by omega⟩
          · trivial
        · trivial
  | inCS r =>
      obtain ⟨hr, hcase⟩ := hq
      simp only [procAct]
      split
      · trivial
      · rcases hcase with h1 | ⟨e, hlock, hle⟩
        · rename_i hnot
          exact absurd (by omega) hnot
        · exact ⟨by rename_i hnot; omega, e, hlock, by rename_i hnot; omega⟩
  | raised => trivial
  | timedOut => trivial

/-- A process satisfying the tightened invariant keeps it through the later
action of the other process within the same tick: its entry is strictly
unexpired, so the other cannot take the lock. -/
theorem okp_post_other {t tok : Bool} {c : ProcCfg} {time : Nat}
    {lock : Option (Bool × Nat)} {p q : PState} (hp : okp t 0 time lock p) :
    okp t 0 time (procAct tok c time lock q).1 p := by
  cases p with
  | inCS r =>
      obtain ⟨hr, e, hlock, hle⟩ := hp
      have hfree : lockFree lock time = false := by
        rw [hlock]
        simp only [lockFree, decide_eq_false_iff_not]
        omega
      exact ⟨hr, e, (procAct_keeps hfree q).trans hlock, hle⟩
  | trying => trivial
  | raised => trivial
  | timedOut => trivial

/-- Advancing the clock by one tick relaxes the tightened invariant back to
the boundary form. -/
theorem okp_succ {t : Bool} {time : Nat} {lock : Option (Bool × Nat)}
    {p : PState} (hp : okp t 0 time lock p) : okp t 1 (time + 1) lock p := by
  cases p with
  | inCS r =>
      obtain ⟨hr, e, hlock, hle⟩ := hp
      exact ⟨hr, e, hlock, by omega⟩
  | trying => trivial
  | raised => trivial
  | timedOut => trivial

/-- The global invariant is preserved by one tick whenever both critical
sections fit inside the TTL. -/
theorem minv_tick {ca cb : ProcCfg} {sched : Nat → Bool} {s : MState}
    (ha1 : 1 ≤ ca.dur) (ha2 : ca.dur ≤ ttl) (hb1 : 1 ≤ cb.dur) (hb2 : cb.dur ≤ ttl)
    (h : minv s) : minv (tick ca cb sched s) := by
  obtain ⟨hA, hB⟩ := h
  unfold tick
  split
  · exact ⟨okp_succ (okp_post_other (okp_self ha1 ha2 hA)),
           okp_succ (okMid_self hb1 hb2 (okp_other_mid hB))⟩
  · exact ⟨okp_succ (okMid_self ha1 ha2 (okp_other_mid hA)),
           okp_succ (okp_post_other (okp_self hb1 hb2 hB))⟩

/-- Under the global invariant both processes can never be inside the
critical section at once: each would need the lock entry to carry its own
token. -/
theorem minv_not_both {s : MState} (h : minv s) : bothInCS s = false := by
  obtain ⟨hA, hB⟩ := h
  cases ha : s.a with
  | inCS r =>
      cases hb : s.b with
      | inCS r2 =>
          rw [ha] at hA
          rw [hb] at hB
          obtain ⟨_, e1, hl1, _⟩ := hA
          obtain ⟨_, e2, hl2, _⟩ := hB
          rw [hl1] at hl2
          simp at hl2
      | trying => simp [bothInCS, inCSb, ha, hb]
      | raised => simp [bothInCS, inCSb, ha, hb]
      | timedOut => simp [bothInCS, inCSb, ha, hb]
  | trying => simp [bothInCS, inCSb, ha]
  | raised => simp [bothInCS, inCSb, ha]
  | timedOut => simp [bothInCS, inCSb, ha]

/-- The global invariant holds after any number of ticks. -/
theorem minv_mrun {ca cb : ProcCfg} {sched : Nat → Bool}
    (ha1 : 1 ≤ ca.dur) (ha2 : ca.dur ≤ ttl) (hb1 : 1 ≤ cb.dur) (hb2 : cb.dur ≤ ttl) :
    ∀ n, minv (mrun ca cb sched n) := by
  intro n
  induction n with
  | zero => exact ⟨trivial, trivial⟩
  | succ n ih => exact minv_tick ha1 ha2 hb1 hb2 ih

/-- C1: the claim says the recomputed coordinates of the repair engine
satisfy the assignment rule of the spec (root left 1 and depth 1, children
continued from the previous sibling, forced depth and tree id).  The code
never reaches any assignment: already on the two-node forest with one root
and one corrupt child, constructing `MPTTFixer` raises the NameError of
`get_root_nodes`, and the whole repair invocation aborts with that error
instead of producing coordinates. -/
theorem c1_fixer_never_computes_coordinates :
    MPTTFixer.init forest1 = .error (.nameError "tree_node_counter")
    ∧ (repair_tree_run envFree forest1 0 true).outcome
        = .error (.nameError "tree_node_counter") :=
  ⟨rfl, rfl⟩

/-- C2: the claim says a repair run over a forest with exactly one orphan
reports exactly that orphan id.  On `forest2` (orphan `pageC` only) the run
aborts with the engine NameError and emits no events at all, so no orphan
report is produced; moreover the set difference the code would compute uses
the never-extended `pages_seen = []`, which on tree 1 names all three nodes
`pageA`, `pageC`, `pageB` rather than exactly the orphan. -/
theorem c2_no_orphan_report_emitted :
    (repair_tree_run envFree forest2 0 false).events = []
    ∧ (repair_tree_run envFree forest2 0 false).outcome
        = .error (.nameError "tree_node_counter")
    ∧ orphans_of forest2 1 [] = [pageA, pageC, pageB] :=
  ⟨rfl, rfl, rfl⟩

/-- C3: dry-run purity as claimed: for every lock history, stored forest and
page id, invoking repair with `commit = False` leaves every stored row — all
of `tree_id`, `depth`, `lft`, `rgt` and `parent` — exactly as it was. -/
theorem c3_dry_run_purity (env : Nat → Option Nat) (s : List Page)
    (page_id : Nat) : (repair_tree_run env s page_id false).storage = s :=
  repair_run_storage env s page_id false

/-- C4: the claim describes a first committed run that repairs the tree and
a second that completes reporting no mismatches.  The code never reaches
that state: the first `commit = True` run on the corrupt `forest1` aborts
with the engine NameError and commits nothing, and the identical second run
on the unchanged table aborts the same way instead of completing. -/
theorem c4_first_commit_run_repairs_nothing :
    (repair_tree_run envFree forest1 0 true).storage = forest1
    ∧ (repair_tree_run envFree forest1 0 true).outcome
        = .error (.nameError "tree_node_counter")
    ∧ (repair_tree_run envFree
        (repair_tree_run envFree forest1 0 true).storage 0 true).outcome
        = .error (.nameError "tree_node_counter") :=
  ⟨rfl, rfl, rfl⟩

/-- C5 counterexample: with the mutex foreign-held through the whole window,
the invocation returns `None` (outcome `ok`) with the lock never acquired —
no `LockTimeoutError` or any other exception is signalled, refuting the
claim that an elapsed timeout fails loudly and never returns silently. -/
theorem c5_counterexample :
    (repair_tree_run envHeld forest1 0 true).outcome = .ok ()
    ∧ (repair_tree_run envHeld forest1 0 true).lockAcquired = false
    ∧ (repair_tree_run envHeld forest1 0 true).storage = forest1 :=
  ⟨rfl, rfl, rfl⟩

/-- C5 amended: if the timeout elapses without acquiring the lock, the
guarded operation is never invoked and no mutation is attempted, but the
call returns `None` silently instead of signalling a `LockTimeoutError`. -/
theorem c5_timeout_returns_silently (env : Nat → Option Nat) (s : List Page)
    (page_id : Nat) (commit : Bool)
    (h : ∀ k, k < attempts → (env k).isSome = true) :
    repair_tree_run env s page_id commit =
      { storage := s, events := [], outcome := .ok (), lockAcquired := false } :=
  repair_run_timeout
    (first_free_none_of_held env attempts 0
      (fun j hj => by rw [Nat.zero_add]; exact h j hj))
    s page_id commit

/-- C5 witness: the amended statement at a fully contended lock history. -/
theorem c5_witness :
    repair_tree_run envHeld forest2 5 true =
      { storage := forest2, events := [], outcome := .ok (), lockAcquired := false } :=
  c5_timeout_returns_silently envHeld forest2 5 true (by decide)

/-- C6 counterexample: requesting repair of the nonexistent id 42 acquires
the mutex first and then fails with the engine NameError, not with the
missing-id ValueError the claim calls `NodeNotFoundError`; both halves of
the claim (the error identity, and failing before any lock is taken) are
false at this input. -/
theorem c6_counterexample :
    (repair_tree_run envFree forest1 42 true).lockAcquired = true
    ∧ (repair_tree_run envFree forest1 42 true).outcome
        = .error (.nameError "tree_node_counter")
    ∧ ¬ (repair_tree_run envFree forest1 42 true).outcome
        = .error (.valueError 42) :=
  ⟨rfl, rfl, by decide⟩

/-- C6 amended: invoking repair for a page id with no stored row fails with
an exception, but only after the mutex has been acquired, and the exception
is the unbound-name error from engine construction (the existence check that
would raise the missing-id ValueError sits behind it on line 81 and is never
reached); the table is left unchanged. -/
theorem c6_missing_page_fails_after_lock (s : List Page) (page_id : Nat)
    (commit : Bool) (h : getPage s page_id = none) :
    (repair_tree_run envFree s page_id commit).lockAcquired = true
    ∧ (repair_tree_run envFree s page_id commit).outcome
        = .error (.nameError "tree_node_counter")
    ∧ (repair_tree_run envFree s page_id commit).storage = s := by
  rw [@repair_run_acquired envFree 0 rfl s page_id commit]
  exact ⟨rfl, rfl, rfl⟩

/-- C6 witness: the amended statement at the nonexistent id 42. -/
theorem c6_witness :
    (repair_tree_run envFree forest1 42 true).lockAcquired = true
    ∧ (repair_tree_run envFree forest1 42 true).outcome
        = .error (.nameError "tree_node_counter")
    ∧ (repair_tree_run envFree forest1 42 true).storage = forest1 :=
  c6_missing_page_fails_after_lock forest1 42 true rfl

/-- C7: all-or-nothing visibility as claimed: whenever a repair run raises,
the surrounding transaction rolls back every write and the stored table
afterwards is exactly the table before — a partially repaired tree is never
visible.  (In this code every run raises, so the none-committed branch of
the disjunction always obtains.) -/
theorem c7_error_rolls_back_everything (env : Nat → Option Nat) (s : List Page)
    (page_id : Nat) (commit : Bool) (e : PyErr)
    (h : (repair_tree_run env s page_id commit).outcome = .error e) :
    (repair_tree_run env s page_id commit).storage = s :=
  repair_run_storage env s page_id commit

/-- C7 witness: the rollback statement at a concrete erroring run. -/
theorem c7_witness :
    (repair_tree_run envFree forest1 0 true).outcome
        = .error (.nameError "tree_node_counter")
    ∧ (repair_tree_run envFree forest1 0 true).storage = forest1 :=
  ⟨rfl, c7_error_rolls_back_everything envFree forest1 0 true
    (.nameError "tree_node_counter") rfl⟩

/-- C8: orphan handling is report-only as claimed: any node in the orphan
set of any tree (the queryset difference `check_for_orphans` computes) has
exactly the same stored row after a repair invocation as before, for every
commit flag — in particular it is never re-attached to a root. -/
theorem c8_orphans_never_modified (env : Nat → Option Nat) (s : List Page)
    (page_id : Nat) (commit : Bool) (tree_id : Int) (pages_seen : List Nat)
    (p : Page) (hp : p ∈ orphans_of s tree_id pages_seen) :
    getPage ((repair_tree_run env s page_id commit).storage) p.id
      = getPage s p.id := by
  rw [repair_run_storage]

/-- C8 witness: the orphan `pageC` of `forest2` is in the orphan set of
tree 1 and its stored row survives a committed repair unchanged. -/
theorem c8_witness :
    pageC ∈ orphans_of forest2 1 [1, 2]
    ∧ getPage ((repair_tree_run envFree forest2 0 true).storage) pageC.id
        = getPage forest2 pageC.id :=
  ⟨by decide,
   c8_orphans_never_modified envFree forest2 0 true 1 [1, 2] pageC (by decide)⟩

/-- C9 counterexample: a holder whose critical section outlives the TTL
loses the lock while still inside it.  First invocation starts at tick 0
with 25 ticks of work; second starts at tick 5; after tick 20 (when the
entry set at tick 0 has expired) both are inside the critical section at
once, refuting unconditional mutual exclusion. -/
theorem c9_counterexample :
    bothInCS (mrun { start := 0, dur := 25 } { start := 5, dur := 5 }
      (fun _ => true) 21) = true := by
  decide

/-- C9 amended: at most one holder executes the guarded critical section at
a time provided every acquired critical section completes within the lock
TTL (twenty poll intervals); without that proviso the entry can expire while
still held and a second invocation may enter concurrently. -/
theorem c9_mutual_exclusion_within_ttl (ca cb : ProcCfg) (sched : Nat → Bool)
    (n : Nat) (ha1 : 1 ≤ ca.dur) (ha2 : ca.dur ≤ ttl)
    (hb1 : 1 ≤ cb.dur) (hb2 : cb.dur ≤ ttl) :
    bothInCS (mrun ca cb sched n) = false :=
  minv_not_both (minv_mrun ha1 ha2 hb1 hb2 n)

/-- C9 witness: the amended exclusivity at concrete in-TTL durations. -/
theorem c9_witness :
    bothInCS (mrun { start := 0, dur := 20 } { start := 5, dur := 7 }
      (fun _ => true) 60) = false :=
  c9_mutual_exclusion_within_ttl { start := 0, dur := 20 } { start := 5, dur := 7 }
    (fun _ => true) 60 (by decide) (by decide) (by decide) (by decide)

/-- C10: as claimed, for every forest with at least one root, every repair
invocation — with or without commit — fails with the unbound-name error
raised while constructing `MPTTFixer` (the bare `tree_node_counter` of
line 199; `self.existing_nodes` on line 207 is equally undefined), before
reporting any result: the outcome is that NameError and the event list is
empty.  The lock history is the uncontended one, so the body is actually
entered. -/
theorem c10_every_invocation_raises_before_reporting (s : List Page)
    (page_id : Nat) (commit : Bool)
    (hroot : s.any (fun p => p.parent.isNone) = true) :
    (repair_tree_run envFree s page_id commit).outcome
        = .error (.nameError "tree_node_counter")
    ∧ (repair_tree_run envFree s page_id commit).events = [] := by
  rw [@repair_run_acquired envFree 0 rfl s page_id commit]
  exact ⟨rfl, rfl⟩

/-- C10 witness: the statement at the one-root forest. -/
theorem c10_witness :
    forest1.any (fun p => p.parent.isNone) = true
    ∧ (repair_tree_run envFree forest1 0 true).outcome
        = .error (.nameError "tree_node_counter")
    ∧ (repair_tree_run envFree forest1 0 true).events = [] :=
  ⟨rfl, (c10_every_invocation_raises_before_reporting forest1 0 true rfl).1,
        (c10_every_invocation_raises_before_reporting forest1 0 true rfl).2⟩
